import Mathlib

/-!
Shallow embedding of the MOMF multi-objective multi-fidelity test-problem
suite (source files: base.py, wang_error_functions.py, RE_problems.py,
DTLZ_problems.py, MOMF_problems.py).

Modelling conventions:
* A sample batch / objective matrix is a function `Fin N → Fin M → α`
  (N sample rows, M columns).
* Python floats are modelled as elements of a `Field` — instantiated at `ℝ`
  for the trigonometric objective formulas and the error functions, and at
  `ℚ` when a witness has to be evaluated by the kernel.
* The NaN sentinel that `evaluate_MF` writes over an unrequested objective
  column (base.py line 105) is modelled by the constructor `PyVal.nan`.
* A raised Python exception (dict `KeyError`, numpy `IndexError`) is
  modelled by `Except.error` carrying the exception text.
* The per-problem `_evaluate_obj` method is passed to `evaluate` /
  `evaluate_MF` as the explicit parameter `evalObj`, mirroring how the
  concrete problem classes plug their evaluator into `_BaseProblem`.
* The instance attribute `self.err_fn` (together with its `__name__` used
  as the `mf_def` key) is passed as the pair `errFn` / `errName`.
-/

set_option maxHeartbeats 1000000

/-- A float cell of the result matrix: either a proper number or the NaN
    sentinel that `evaluate_MF` writes over a whole column when the
    objective has no entry in the fidelity request (base.py line 105). -/
inductive PyVal (α : Type) where
  | nan : PyVal α
  | val : α → PyVal α

/-- The pymoo-style result dictionary: `evaluate` and `evaluate_MF` both
    return their objective matrix under the single dictionary key F
    (base.py lines 56-57 and 94-113). -/
structure FDict (β : Type) where
  F : β

/-- base.py line 98, scalar form: `x_s = (1 - -1) * (x - x_min)/(x_max - x_min) + -1`,
    the fixed rescaling to [-1, 1] applied to the batch before the error
    functions see it. -/
def scale_x {α : Type} [Field α] (lo hi v : α) : α :=
  (1 - -1) * (v - lo) / (hi - lo) + -1

/-- Columnwise application of `scale_x` to the whole sample batch, using
    the per-variable bound arrays of `get_bound_arrays` (base.py
    lines 96-98). -/
def x_scaled {α : Type} [Field α] {N m : ℕ} (xMin xMax : Fin m → α)
    (x : Fin N → Fin m → α) : Fin N → Fin m → α :=
  fun i j => scale_x (xMin j) (xMax j) (x i j)

/-- _BaseProblem.evaluate (base.py lines 45-57): runs the problem's
    `_evaluate_obj` (the `evalObj` parameter) and wraps the N×O objective
    matrix in the result dictionary under key F. -/
def evaluate {α : Type} {N nVar nObj : ℕ}
    (evalObj : (Fin N → Fin nVar → α) → Fin N → Fin nObj → α)
    (x : Fin N → Fin nVar → α) : FDict (Fin N → Fin nObj → α) :=
  ⟨evalObj x⟩

/-- One row of a problem's `mf_def` calibration dictionary
    (MOMF_problems.py): for a fixed error-function name, the map from the
    requested fidelity level to the internal parameter Phi, and the fixed
    per-objective scale factor.  A level absent from the Python `Phi` dict
    is `none` (looking it up raises `KeyError`). -/
structure CalEntry (α : Type) (nObj : ℕ) where
  Phi : ℤ → Option α
  scale : Fin nObj → α

/-- The body of the per-objective loop of `_MF_Base.evaluate_MF`
    (base.py lines 101-111), producing objective `f`'s column of the
    result:
    * no entry in the fidelity request (`Phi_kw not in kwargs`) — the
      column becomes all-NaN;
    * requested level strictly positive — look up the active error
      function's calibration entry (`mf_def[err_fn.__name__]`, then its
      `Phi` dict at the level; a missing dict key raises `KeyError`) and
      add `scale[f] * err_fn(x_s, Phi[level])` to the high-fidelity column;
    * otherwise (level 0 or negative) — leave the high-fidelity column
      untouched.
    `F` is the high-fidelity matrix and `errv` is the active error
    function already applied to the scaled batch `x_s`. -/
def mf_col {α : Type} [Field α] {N nObj : ℕ}
    (F : Fin N → Fin nObj → α) (errv : α → Fin N → α)
    (mf_def : String → Option (CalEntry α nObj)) (errName : String)
    (req : Fin nObj → Option ℤ) (f : Fin nObj) :
    Except String (Fin N → PyVal α) :=
  match req f with
  | none => .ok fun _ => .nan
  | some l =>
    if l > 0 then
      match mf_def errName with
      | none => .error ("KeyError: " ++ errName)
      | some entry =>
        match entry.Phi l with
        | none => .error ("KeyError: " ++ toString l)
        | some phi => .ok fun i => .val (F i f + entry.scale f * errv phi i)
    else .ok fun i => .val (F i f)

/-- The `KeyError` (if any) raised while computing objective `f`'s
    column, extracted from `mf_col`. -/
def mf_colErr {α : Type} [Field α] {N nObj : ℕ}
    (F : Fin N → Fin nObj → α) (errv : α → Fin N → α)
    (mf_def : String → Option (CalEntry α nObj)) (errName : String)
    (req : Fin nObj → Option ℤ) (f : Fin nObj) : Option String :=
  match mf_col F errv mf_def errName req f with
  | .error e => some e
  | .ok _ => none

/-- Cell (i, f) of the final matrix in the run where no column raised
    (the `.nan` arm is then unreachable). -/
def mf_entry {α : Type} [Field α] {N nObj : ℕ}
    (F : Fin N → Fin nObj → α) (errv : α → Fin N → α)
    (mf_def : String → Option (CalEntry α nObj)) (errName : String)
    (req : Fin nObj → Option ℤ) (i : Fin N) (f : Fin nObj) : PyVal α :=
  match mf_col F errv mf_def errName req f with
  | .ok v => v i
  | .error _ => .nan

/-- _MF_Base.evaluate_MF (base.py lines 80-113).  Computes the full
    high-fidelity matrix via `evaluate`, rescales the batch with the
    declared bounds, then rewrites each objective column as described by
    `mf_col`.  Python raises the `KeyError` of the first offending
    objective in loop order and the partially mutated dictionary is lost,
    which is modelled by returning the first `mf_col` error when one
    exists and the assembled matrix otherwise.  (The high-fidelity matrix
    and the scaled batch are each computed once in the source; repeating
    the pure `mf_col` term here is observationally identical.) -/
def evaluate_MF {α : Type} [Field α] {N nVar nObj : ℕ}
    (evalObj : (Fin N → Fin nVar → α) → Fin N → Fin nObj → α)
    (xMin xMax : Fin nVar → α)
    (errFn : (Fin N → Fin nVar → α) → α → Fin N → α) (errName : String)
    (mf_def : String → Option (CalEntry α nObj))
    (x : Fin N → Fin nVar → α) (req : Fin nObj → Option ℤ) :
    Except String (FDict (Fin N → Fin nObj → PyVal α)) :=
  match (List.finRange nObj).findSome?
      (mf_colErr (evaluate evalObj x).F (errFn (x_scaled xMin xMax x))
        mf_def errName req) with
  | some e => .error e
  | none => .ok ⟨mf_entry (evaluate evalObj x).F (errFn (x_scaled xMin xMax x))
      mf_def errName req⟩

/-! ### wang_error_functions.py — the error function library

Each function returns one noise value per row.  The stochastic and
instability variants call `np.random.rand(n)`; the fresh uniform draws are
made explicit as the parameter `r : Fin n → ℝ` (one draw per row), so each
function is a pure map of its inputs and its realized randomness. -/

/-- e_r1 (wang_error_functions.py lines 59-68): resolution error with
    linear decay `theta = 1 - 0.0001 phi`;
    `e_i = sum_j theta * cos(10 pi theta * x_ij + 0.5 pi theta + pi)`. -/
noncomputable def e_r1 {n d : ℕ} (x : Fin n → Fin d → ℝ) (phi : ℝ) :
    Fin n → ℝ := fun i =>
  ∑ j : Fin d, (1 - 0.0001 * phi) *
    Real.cos (10 * Real.pi * (1 - 0.0001 * phi) * x i j
      + 0.5 * Real.pi * (1 - 0.0001 * phi) + Real.pi)

/-- e_r2 (lines 71-80): resolution error with exponential decay
    `theta = exp(-0.00025 phi)`. -/
noncomputable def e_r2 {n d : ℕ} (x : Fin n → Fin d → ℝ) (phi : ℝ) :
    Fin n → ℝ := fun i =>
  ∑ j : Fin d, Real.exp (-0.00025 * phi) *
    Real.cos (10 * Real.pi * Real.exp (-0.00025 * phi) * x i j
      + 0.5 * Real.pi * Real.exp (-0.00025 * phi) + Real.pi)

/-- The 10-segment piecewise "staircase" decay parameter of e_r3
    (lines 87-106). -/
noncomputable def e_r3_theta (phi : ℝ) : ℝ :=
  if phi < 1000 then 1 - 0.0002 * phi
  else if phi < 2000 then 0.8
  else if phi < 3000 then 1.2 - 0.0002 * phi
  else if phi < 4000 then 0.6
  else if phi < 5000 then 1.4 - 0.0002 * phi
  else if phi < 6000 then 0.4
  else if phi < 7000 then 1.6 - 0.0002 * phi
  else if phi < 8000 then 0.2
  else if phi < 9000 then 1.8 - 0.0002 * phi
  else 0

/-- e_r3 (lines 83-111): resolution error with staircase decay. -/
noncomputable def e_r3 {n d : ℕ} (x : Fin n → Fin d → ℝ) (phi : ℝ) :
    Fin n → ℝ := fun i =>
  ∑ j : Fin d, e_r3_theta phi *
    Real.cos (10 * Real.pi * e_r3_theta phi * x i j
      + 0.5 * Real.pi * e_r3_theta phi + Real.pi)

/-- e_r4 (lines 114-124): resolution error anchored at the fixed baseline
    vector `x_b`; the amplitude is `theta * psi` with
    `psi = 1 - |x - x_b|` elementwise. -/
noncomputable def e_r4 {n d : ℕ} (x : Fin n → Fin d → ℝ) (phi : ℝ)
    (x_b : Fin d → ℝ) : Fin n → ℝ := fun i =>
  ∑ j : Fin d, ((1 - 0.0001 * phi) * (1 - |x i j - x_b j|)) *
    Real.cos (10 * Real.pi * (1 - 0.0001 * phi) * x i j
      + 0.5 * Real.pi * (1 - 0.0001 * phi) + Real.pi)

/-- e_s1 (lines 127-134): stochastic error `e = rand(n) * sigma + mu` with
    `sigma = 0.1 * (1 - 0.0001 phi)` and `mu = 0`. -/
noncomputable def e_s1 {n d : ℕ} (x : Fin n → Fin d → ℝ) (phi : ℝ)
    (r : Fin n → ℝ) : Fin n → ℝ := fun i =>
  r i * (0.1 * (1 - 0.0001 * phi)) + 0

/-- e_s2 (lines 137-144): stochastic error with
    `sigma = 0.1 * exp(-0.0005 phi)` and `mu = 0`. -/
noncomputable def e_s2 {n d : ℕ} (x : Fin n → Fin d → ℝ) (phi : ℝ)
    (r : Fin n → ℝ) : Fin n → ℝ := fun i =>
  r i * (0.1 * Real.exp (-0.0005 * phi)) + 0

/-- e_s3 (lines 147-156): stochastic error with linear-decay sigma and a
    per-row mean `mu = (sigma / d) * gamma`, `gamma = sum_j (1 - |x_ij|)`. -/
noncomputable def e_s3 {n d : ℕ} (x : Fin n → Fin d → ℝ) (phi : ℝ)
    (r : Fin n → ℝ) : Fin n → ℝ := fun i =>
  r i * (0.1 * (1 - 0.0001 * phi)) +
    (0.1 * (1 - 0.0001 * phi) / d) * ∑ j : Fin d, (1 - |x i j|)

/-- e_s4 (lines 159-168): the e_s3 mean-shifted stochastic error with
    exponential-decay sigma. -/
noncomputable def e_s4 {n d : ℕ} (x : Fin n → Fin d → ℝ) (phi : ℝ)
    (r : Fin n → ℝ) : Fin n → ℝ := fun i =>
  r i * (0.1 * Real.exp (-0.0005 * phi)) +
    (0.1 * Real.exp (-0.0005 * phi) / d) * ∑ j : Fin d, (1 - |x i j|)

/-- e_ins1 (lines 171-179): instability error.  The row starts at the
    penalty `10 * d` and is zeroed where the uniform draw exceeds
    `p = 0.1 * (1 - 0.0001 phi)`. -/
noncomputable def e_ins1 {n d : ℕ} (x : Fin n → Fin d → ℝ) (phi : ℝ)
    (r : Fin n → ℝ) : Fin n → ℝ := fun i =>
  if r i > 0.1 * (1 - 0.0001 * phi) then 0 else 10 * d

/-- e_ins2 (lines 182-190): instability error with exponentially decaying
    spike probability `p = exp(-0.001 phi - 0.1)`. -/
noncomputable def e_ins2 {n d : ℕ} (x : Fin n → Fin d → ℝ) (phi : ℝ)
    (r : Fin n → ℝ) : Fin n → ℝ := fun i =>
  if r i > Real.exp (-0.001 * phi - 0.1) then 0 else 10 * d

/-- The three mechanism families of wang_error_functions.py (file header:
    Type I resolution, Type II stochastic, Type III instability). -/
inductive ErrFamily where
  | resolution : ErrFamily
  | stochastic : ErrFamily
  | instability : ErrFamily
deriving DecidableEq

/-- The three signatures occurring in wang_error_functions.py: plain
    deterministic `(x, phi)` functions, the baseline-anchored `(x, phi, x_b)`
    variant, and the random-draw-consuming `(x, phi)`-plus-randomness
    variants. -/
inductive WangErrFn where
  | det : (∀ n d : ℕ, (Fin n → Fin d → ℝ) → ℝ → Fin n → ℝ) → WangErrFn
  | detBase : (∀ n d : ℕ, (Fin n → Fin d → ℝ) → ℝ → (Fin d → ℝ) → Fin n → ℝ) →
      WangErrFn
  | rand : (∀ n d : ℕ, (Fin n → Fin d → ℝ) → ℝ → (Fin n → ℝ) → Fin n → ℝ) →
      WangErrFn

/-- The complete set of named error functions defined in
    wang_error_functions.py, in source order, tagged with their mechanism
    family. -/
noncomputable def wang_error_function_set : List (String × ErrFamily × WangErrFn) :=
  [("e_r1", .resolution, .det fun n d => e_r1),
   ("e_r2", .resolution, .det fun n d => e_r2),
   ("e_r3", .resolution, .det fun n d => e_r3),
   ("e_r4", .resolution, .detBase fun n d => e_r4),
   ("e_s1", .stochastic, .rand fun n d => e_s1),
   ("e_s2", .stochastic, .rand fun n d => e_s2),
   ("e_s3", .stochastic, .rand fun n d => e_s3),
   ("e_s4", .stochastic, .rand fun n d => e_s4),
   ("e_ins1", .instability, .rand fun n d => e_ins1),
   ("e_ins2", .instability, .rand fun n d => e_ins2)]

/-! ### RE_problems.py — the four bar truss problem RE2_4_1 -/

/-- numpy column extraction `x[:, j]` on an N×M array with a *runtime*
    column index: out-of-range indices raise `IndexError`
    (this is how a wrongly shaped batch surfaces in `_evaluate_obj`). -/
def getCol {N M : ℕ} (x : Fin N → Fin M → ℝ) (j : ℕ) :
    Except String (Fin N → ℝ) :=
  if h : j < M then .ok fun i => x i ⟨j, h⟩
  else .error ("IndexError: index " ++ toString j ++
    " is out of bounds for axis 1 with size " ++ toString M)

/-- RE2_4_1 class constant F = 10 (kN). -/
def RE2_4_1_F : ℝ := 10
/-- RE2_4_1 class constant E = 2e5 (kN/cm^2). -/
def RE2_4_1_E : ℝ := 200000
/-- RE2_4_1 class constant L = 200 (cm). -/
def RE2_4_1_L : ℝ := 200
/-- RE2_4_1 class constant sigma = 10 (kN/cm^2). -/
def RE2_4_1_sigma : ℝ := 10
/-- RE2_4_1 class constant a = F / sigma. -/
noncomputable def RE2_4_1_a : ℝ := RE2_4_1_F / RE2_4_1_sigma

/-- The two objective formulas of RE2_4_1._evaluate_obj
    (RE_problems.py lines 63-69) as a function of the four extracted
    columns: structural volume f1 and joint displacement f2. -/
noncomputable def RE2_4_1_formulas (x1 x2 x3 x4 : ℝ) : Fin 2 → ℝ :=
  ![RE2_4_1_L * (2 * x1 + Real.sqrt (2 * x2) + Real.sqrt x3 + x4),
    (RE2_4_1_F * RE2_4_1_L / RE2_4_1_E) *
      ((2 / x1) + (2 * Real.sqrt 2 / x2) - (2 * Real.sqrt 2 / x3) + (2 / x4))]

/-- RE2_4_1._evaluate_obj (RE_problems.py lines 57-71) on a batch of an
    *arbitrary* column count M: the four column reads `x[:, 0] .. x[:, 3]`
    happen in order and raise `IndexError` at the first out-of-range one;
    whatever columns exist beyond index 3 are silently ignored. -/
noncomputable def RE2_4_1_evaluate_obj {N M : ℕ} (x : Fin N → Fin M → ℝ) :
    Except String (Fin N → Fin 2 → ℝ) := do
  let x1 ← getCol x 0
  let x2 ← getCol x 1
  let x3 ← getCol x 2
  let x4 ← getCol x 3
  pure fun i => RE2_4_1_formulas (x1 i) (x2 i) (x3 i) (x4 i)

/-- RE2_4_1 lower bounds (`_vars` first components, RE_problems.py
    lines 52-55, with a = 1): [a, sqrt(2 a), sqrt(2 a), a]. -/
noncomputable def RE2_4_1_xmin : Fin 4 → ℝ :=
  ![RE2_4_1_a, Real.sqrt (2 * RE2_4_1_a), Real.sqrt (2 * RE2_4_1_a), RE2_4_1_a]

/-- RE2_4_1 upper bounds (`_vars` last components): [3a, 3a, 3a, 3a]. -/
noncomputable def RE2_4_1_xmax : Fin 4 → ℝ :=
  ![3 * RE2_4_1_a, 3 * RE2_4_1_a, 3 * RE2_4_1_a, 3 * RE2_4_1_a]

/-! ### DTLZ_problems.py — DTLZ2 and InvertedDTLZ2

`_DTLZ_Base.__init__` sets `n_var = n_obj + k - 1`; since `n_obj ≥ 1` for
any meaningful instance this equals `(n_obj - 1) + k`, which is the form
used for the row length so that the two slices
`x[:, :n_obj-1]` / `x[:, n_obj-1:]` are total functions.  All numpy
operations in this file are row-independent, so the evaluators are stated
on a single sample row; the batch version is the rowwise map. -/

/-- The slice `x_pos = x[:, :n_obj-1]` of one sample row
    (DTLZ_problems.py line 77). -/
def dtlz_xpos (n_obj k : ℕ) (x : Fin (n_obj - 1 + k) → ℝ)
    (j : Fin (n_obj - 1)) : ℝ :=
  x ⟨j.val, by have := j.isLt; omega⟩

/-- The slice `x_m = x[:, n_obj-1:]` of one sample row
    (DTLZ_problems.py line 77). -/
def dtlz_xm (n_obj k : ℕ) (x : Fin (n_obj - 1 + k) → ℝ) (j : Fin k) : ℝ :=
  x ⟨n_obj - 1 + j.val, by have := j.isLt; omega⟩

/-- _DTLZ_Base.g (DTLZ_problems.py lines 51-55) on one sample row:
    `g = x_m.shape[1] + sum((x_m - 0.5)^2 - cos(20 pi (x_m - 0.5)))`. -/
noncomputable def dtlz_g (kdim : ℕ) (xm : Fin kdim → ℝ) : ℝ :=
  kdim + ∑ j : Fin kdim,
    ((xm j - 0.5) ^ 2 - Real.cos (20 * Real.pi * (xm j - 0.5)))

/-- _DTLZ_Base.s (DTLZ_problems.py lines 57-65) on one sample row.
    Column 0 of the hstacked S is `prod_j cos(x_pos_j pi/2) ^ beta`; the
    loop then appends, for `i = n_obj-2` down to `0`, the column
    `(prod_{j<i} cos(x_pos_j pi/2) * sin(x_pos_i pi/2)) ^ beta`, so
    result column `c ≥ 1` carries the loop index `i = n_obj - 1 - c`. -/
noncomputable def dtlz_s (n_obj beta : ℕ) (xpos : Fin (n_obj - 1) → ℝ)
    (c : Fin n_obj) : ℝ :=
  if hc : c.val = 0 then
    (∏ j : Fin (n_obj - 1), Real.cos (xpos j * Real.pi / 2)) ^ beta
  else
    ((∏ j : Fin (n_obj - 1),
        if j.val < n_obj - 1 - c.val then Real.cos (xpos j * Real.pi / 2) else 1) *
      Real.sin (xpos ⟨n_obj - 1 - c.val, by have := c.isLt; omega⟩ *
        Real.pi / 2)) ^ beta

/-- DTLZ2._evaluate_obj (DTLZ_problems.py lines 75-83) on one sample row:
    objective column c is `(1 + g(x_m)) * s(x_pos) c`. -/
noncomputable def DTLZ2_evaluate_obj (n_obj k beta : ℕ)
    (x : Fin (n_obj - 1 + k) → ℝ) (c : Fin n_obj) : ℝ :=
  (1 + dtlz_g k (dtlz_xm n_obj k x)) * dtlz_s n_obj beta (dtlz_xpos n_obj k x) c

/-- InvertedDTLZ2._evaluate_obj (DTLZ_problems.py lines 93-101) on one
    sample row: objective column c is `(1 + g(x_m)) * (1 - s(x_pos) c)`. -/
noncomputable def InvertedDTLZ2_evaluate_obj (n_obj k beta : ℕ)
    (x : Fin (n_obj - 1 + k) → ℝ) (c : Fin n_obj) : ℝ :=
  (1 + dtlz_g k (dtlz_xm n_obj k x)) *
    (1 - dtlz_s n_obj beta (dtlz_xpos n_obj k x) c)

/-! ### MOMF_problems.py — the MOMF2_4_1a calibration table -/

/-- A three-level Python `Phi` dict `{1: a, 2: b, 3: c}` as used by every
    `mf_def` entry of the two-objective MOMF problems. -/
def phiTable3 (a b c : ℝ) : ℤ → Option ℝ := fun l =>
  if l = 1 then some a else if l = 2 then some b else if l = 3 then some c
  else none

/-- The `e_r1` row of MOMF2_4_1a.mf_def:
    `Phi = {1: 8436, 2: 7064, 3: 5000}`,
    `scale = {f1: 1.0962e+02, f2: 1.6447e-01}`. -/
noncomputable def MOMF2_4_1a_er1_entry : CalEntry ℝ 2 :=
  ⟨phiTable3 8436 7064 5000, ![109.62, 0.16447]⟩

/-- MOMF2_4_1a.mf_def (MOMF_problems.py lines 66-81): the calibration
    dictionary of the four-bar-truss multi-fidelity problem, keyed by
    error-function name; scale factors are written out in decimal
    (e.g. 1.0962e+02 = 109.62). -/
noncomputable def MOMF2_4_1a_mf_def : String → Option (CalEntry ℝ 2) :=
  fun name =>
    if name = "e_r1" then some MOMF2_4_1a_er1_entry
    else if name = "e_r2" then some ⟨phiTable3 9178 6893 5000, ![200.85, 0.30882]⟩
    else if name = "e_r3" then some ⟨phiTable3 8266 6583 5000, ![131.17, 0.21674]⟩
    else if name = "e_s1" then some ⟨phiTable3 8697 6853 5000, ![5385.6, 7.2515]⟩
    else if name = "e_s2" then some ⟨phiTable3 7715 5891 5000, ![32636, 44.158]⟩
    else if name = "e_s3" then some ⟨phiTable3 8697 7014 5000, ![6928.7, 5.6141]⟩
    else if name = "e_s4" then some ⟨phiTable3 7605 6102 5000, ![42286, 34.426]⟩
    else none

/-! ## Claim theorems -/

/-- C5: for every bound pair (lower, upper) with lower < upper and every x
    with lower ≤ x ≤ upper, the value `x_scaled` computed by evaluate_MF's
    rescaling formula `2 (x - lower)/(upper - lower) - 1` lies in [-1, 1],
    with x = lower giving exactly -1 and x = upper giving exactly 1. -/
theorem scale_x_normalization {α : Type} [LinearOrderedField α]
    (lo hi v : α) (hlt : lo < hi) (hlo : lo ≤ v) (hhi : v ≤ hi) :
    (-1 ≤ scale_x lo hi v ∧ scale_x lo hi v ≤ 1) ∧
    (v = lo → scale_x lo hi v = -1) ∧ (v = hi → scale_x lo hi v = 1) := by
  have hpos : (0 : α) < hi - lo := sub_pos.mpr hlt
  have hq0 : (0 : α) ≤ (v - lo) / (hi - lo) := div_nonneg (by linarith) hpos.le
  have hq1 : (v - lo) / (hi - lo) ≤ 1 := (div_le_one hpos).mpr (by linarith)
  have hform : scale_x lo hi v = 2 * ((v - lo) / (hi - lo)) + -1 := by
    unfold scale_x; ring
  refine ⟨⟨?_, ?_⟩, ?_, ?_⟩
  · rw [hform]; linarith
  · rw [hform]; linarith
  · intro h; subst h; simp [scale_x]
  · intro h; subst h
    rw [hform, div_self hpos.ne']; ring

/-- Witness for C5 at the concrete bound pair (0, 2) with v = 1 over ℚ. -/
theorem scale_x_normalization_witness :
    ((-1 ≤ scale_x (0 : ℚ) 2 1 ∧ scale_x (0 : ℚ) 2 1 ≤ 1) ∧
     ((1 : ℚ) = 0 → scale_x (0 : ℚ) 2 1 = -1) ∧
     ((1 : ℚ) = 2 → scale_x (0 : ℚ) 2 1 = 1)) :=
  scale_x_normalization 0 2 1 (by decide) (by decide) (by decide)

/-- C7: on any shared sample row and any shared parameters
    (n_obj, k, beta), each InvertedDTLZ2 objective column equals
    `(1 + g)` minus the corresponding DTLZ2 objective column, where `g` is
    the shape-distortion scalar of that row.  Over real arithmetic the
    identity is exact, hence a fortiori within floating-point tolerance. -/
theorem inverted_dtlz2_is_complement (n_obj k beta : ℕ)
    (x : Fin (n_obj - 1 + k) → ℝ) (c : Fin n_obj) :
    InvertedDTLZ2_evaluate_obj n_obj k beta x c =
      (1 + dtlz_g k (dtlz_xm n_obj k x)) - DTLZ2_evaluate_obj n_obj k beta x c := by
  unfold InvertedDTLZ2_evaluate_obj DTLZ2_evaluate_obj; ring

/-- C8: for every input batch, fidelity value and realization of the
    per-row uniform draws, each row of e_ins1 and of e_ins2 is either
    exactly 0 or exactly the spike 10·d, never an intermediate value. -/
theorem instability_error_zero_or_spike (n d : ℕ) (x : Fin n → Fin d → ℝ)
    (phi : ℝ) (r : Fin n → ℝ) (i : Fin n) :
    (e_ins1 x phi r i = 0 ∨ e_ins1 x phi r i = 10 * d) ∧
    (e_ins2 x phi r i = 0 ∨ e_ins2 x phi r i = 10 * d) := by
  constructor
  · simp only [e_ins1]
    split_ifs with h
    · exact Or.inl rfl
    · exact Or.inr rfl
  · simp only [e_ins2]
    split_ifs with h
    · exact Or.inl rfl
    · exact Or.inr rfl

/-- C9 counterexample: the error-function library of
    wang_error_functions.py does not contain 13 functions (the file
    defines exactly the 10 functions e_r1-e_r4, e_s1-e_s4, e_ins1-e_ins2;
    the "13" of the module docstring is copied from the original MATLAB
    suite).  Note the claim's own grouping 4 + 4 + 2 already sums to 10. -/
theorem wang_error_set_not_thirteen :
    ¬ wang_error_function_set.length = 13 := by decide

/-- C9 amended: the error function set consists of exactly 10 distinct
    named noise-generating functions — 4 resolution variants, 4 stochastic
    variants and 2 instability variants — each mapping a sample batch and
    a fidelity parameter (plus, for exactly one variant, a fixed baseline
    vector) to one noise value per row; the per-row typing is carried by
    the `WangErrFn` signatures. -/
theorem wang_error_set_census :
    wang_error_function_set.length = 10 ∧
    (wang_error_function_set.map (fun e => e.1)).Nodup ∧
    (wang_error_function_set.filter
      (fun e => decide (e.2.1 = ErrFamily.resolution))).length = 4 ∧
    (wang_error_function_set.filter
      (fun e => decide (e.2.1 = ErrFamily.stochastic))).length = 4 ∧
    (wang_error_function_set.filter
      (fun e => decide (e.2.1 = ErrFamily.instability))).length = 2 ∧
    (wang_error_function_set.filter
      (fun e => e.2.2 matches WangErrFn.detBase _)).length = 1 := by
  refine ⟨rfl, ?_, rfl, rfl, rfl, rfl⟩
  decide
/-- C1: when objective f's requested fidelity level is strictly positive
    and present in the active error function's calibration entry, column f
    of the matrix returned by evaluate_MF is the high-fidelity column
    (always fully computed by the wrapped objective evaluator) plus
    elementwise `scale[f] * err_fn(x_scaled, Phi[level])`, where scale and
    Phi come from the calibration entry keyed by the active error
    function's name and x_scaled is the batch normalized columnwise to
    [-1, 1] by the declared bounds. -/
theorem evaluate_MF_positive_level_adds_scaled_error {α : Type} [Field α]
    {N nVar nObj : ℕ}
    (evalObj : (Fin N → Fin nVar → α) → Fin N → Fin nObj → α)
    (xMin xMax : Fin nVar → α)
    (errFn : (Fin N → Fin nVar → α) → α → Fin N → α) (errName : String)
    (mf_def : String → Option (CalEntry α nObj))
    (x : Fin N → Fin nVar → α) (req : Fin nObj → Option ℤ)
    (f : Fin nObj) (i : Fin N) (l : ℤ) (entry : CalEntry α nObj) (phi : α)
    (hreq : req f = some l) (hl : l > 0)
    (hdef : mf_def errName = some entry) (hPhi : entry.Phi l = some phi)
    (hok : (evaluate_MF evalObj xMin xMax errFn errName mf_def x req).isOk = true) :
    Except.map (fun r => r.F i f)
        (evaluate_MF evalObj xMin xMax errFn errName mf_def x req) =
      .ok (.val (evalObj x i f +
        entry.scale f * errFn (x_scaled xMin xMax x) phi i)) := by
  have hcol : mf_col (evalObj x) (errFn (x_scaled xMin xMax x))
      mf_def errName req f =
      .ok (fun j => .val (evalObj x j f +
        entry.scale f * errFn (x_scaled xMin xMax x) phi j)) := by
    simp [mf_col, hreq, hl, hdef, hPhi]
  unfold evaluate_MF at hok ⊢
  rcases heq : List.findSome?
      (mf_colErr (evaluate evalObj x).F (errFn (x_scaled xMin xMax x))
        mf_def errName req) (List.finRange nObj) with _ | e
  · simp [Except.map, mf_entry, hcol, evaluate]
  · rw [heq] at hok
    simp [Except.isOk, Except.toBool] at hok

/-- C2: when objective f has no entry in the fidelity request passed to
    evaluate_MF, every row of column f of the returned matrix is the NaN
    sentinel, overwriting the high-fidelity value, regardless of x. -/
theorem evaluate_MF_missing_request_gives_nan {α : Type} [Field α]
    {N nVar nObj : ℕ}
    (evalObj : (Fin N → Fin nVar → α) → Fin N → Fin nObj → α)
    (xMin xMax : Fin nVar → α)
    (errFn : (Fin N → Fin nVar → α) → α → Fin N → α) (errName : String)
    (mf_def : String → Option (CalEntry α nObj))
    (x : Fin N → Fin nVar → α) (req : Fin nObj → Option ℤ)
    (f : Fin nObj) (i : Fin N)
    (hreq : req f = none)
    (hok : (evaluate_MF evalObj xMin xMax errFn errName mf_def x req).isOk = true) :
    Except.map (fun r => r.F i f)
        (evaluate_MF evalObj xMin xMax errFn errName mf_def x req) =
      .ok .nan := by
  have hcol : mf_col (evalObj x) (errFn (x_scaled xMin xMax x))
      mf_def errName req f = .ok (fun _ => .nan) := by
    simp [mf_col, hreq]
  unfold evaluate_MF at hok ⊢
  rcases heq : List.findSome?
      (mf_colErr (evaluate evalObj x).F (errFn (x_scaled xMin xMax x))
        mf_def errName req) (List.finRange nObj) with _ | e
  · simp [Except.map, mf_entry, hcol, evaluate]
  · rw [heq] at hok
    simp [Except.isOk, Except.toBool] at hok

/-- C3: a fidelity request that assigns level exactly 0 to every objective
    makes evaluate_MF return exactly the objective matrix of evaluate(x):
    every column is the unmodified high-fidelity value (wrapped in the
    numeric `PyVal.val` constructor of the result cell type), with no
    error added. -/
theorem evaluate_MF_all_zero_matches_evaluate {α : Type} [Field α]
    {N nVar nObj : ℕ}
    (evalObj : (Fin N → Fin nVar → α) → Fin N → Fin nObj → α)
    (xMin xMax : Fin nVar → α)
    (errFn : (Fin N → Fin nVar → α) → α → Fin N → α) (errName : String)
    (mf_def : String → Option (CalEntry α nObj))
    (x : Fin N → Fin nVar → α) (req : Fin nObj → Option ℤ)
    (hreq : ∀ f, req f = some 0) :
    evaluate_MF evalObj xMin xMax errFn errName mf_def x req =
      .ok ⟨fun i f => .val ((evaluate evalObj x).F i f)⟩ := by
  have hcol : ∀ f, mf_col (evalObj x) (errFn (x_scaled xMin xMax x))
      mf_def errName req f = .ok (fun i => .val (evalObj x i f)) := by
    intro f; simp [mf_col, hreq f]
  have hfind : List.findSome?
      (mf_colErr (evaluate evalObj x).F (errFn (x_scaled xMin xMax x))
        mf_def errName req) (List.finRange nObj) = none := by
    rw [List.findSome?_eq_none_iff]
    intro f _
    simp [mf_colErr, evaluate, hcol f]
  unfold evaluate_MF
  rw [hfind]
  dsimp only
  refine congrArg Except.ok (congrArg FDict.mk ?_)
  funext i f
  simp [mf_entry, evaluate, hcol f]

/-- C10: when objective f's requested level is present but not strictly
    positive (level 0 or any negative integer), evaluate_MF leaves
    column f equal to the unmodified high-fidelity value — no error term,
    no NaN — for any calibration table whatsoever (the positive-level
    branch, and with it the calibration lookup, is never entered). -/
theorem evaluate_MF_nonpositive_level_passthrough {α : Type} [Field α]
    {N nVar nObj : ℕ}
    (evalObj : (Fin N → Fin nVar → α) → Fin N → Fin nObj → α)
    (xMin xMax : Fin nVar → α)
    (errFn : (Fin N → Fin nVar → α) → α → Fin N → α) (errName : String)
    (mf_def : String → Option (CalEntry α nObj))
    (x : Fin N → Fin nVar → α) (req : Fin nObj → Option ℤ)
    (f : Fin nObj) (i : Fin N) (l : ℤ)
    (hreq : req f = some l) (hl : ¬ l > 0)
    (hok : (evaluate_MF evalObj xMin xMax errFn errName mf_def x req).isOk = true) :
    Except.map (fun r => r.F i f)
        (evaluate_MF evalObj xMin xMax errFn errName mf_def x req) =
      .ok (.val (evalObj x i f)) := by
  have hcol : mf_col (evalObj x) (errFn (x_scaled xMin xMax x))
      mf_def errName req f = .ok (fun j => .val (evalObj x j f)) := by
    simp [mf_col, hreq, hl]
  unfold evaluate_MF at hok ⊢
  rcases heq : List.findSome?
      (mf_colErr (evaluate evalObj x).F (errFn (x_scaled xMin xMax x))
        mf_def errName req) (List.finRange nObj) with _ | e
  · simp [Except.map, mf_entry, hcol, evaluate]
  · rw [heq] at hok
    simp [Except.isOk, Except.toBool] at hok

/-- C4 amended: a requested fidelity level that is strictly positive but
    absent from the active error function's calibration entry makes
    evaluate_MF raise an error (the Python dict KeyError) instead of
    silently defaulting or returning a matrix. -/
theorem evaluate_MF_unknown_level_raises {α : Type} [Field α]
    {N nVar nObj : ℕ}
    (evalObj : (Fin N → Fin nVar → α) → Fin N → Fin nObj → α)
    (xMin xMax : Fin nVar → α)
    (errFn : (Fin N → Fin nVar → α) → α → Fin N → α) (errName : String)
    (mf_def : String → Option (CalEntry α nObj))
    (x : Fin N → Fin nVar → α) (req : Fin nObj → Option ℤ)
    (f : Fin nObj) (l : ℤ) (entry : CalEntry α nObj)
    (hreq : req f = some l) (hl : l > 0)
    (hdef : mf_def errName = some entry) (hPhi : entry.Phi l = none) :
    ∃ msg, evaluate_MF evalObj xMin xMax errFn errName mf_def x req =
      .error msg := by
  have hcol : mf_col (evalObj x) (errFn (x_scaled xMin xMax x))
      mf_def errName req f = .error ("KeyError: " ++ toString l) := by
    simp [mf_col, hreq, hl, hdef, hPhi]
  unfold evaluate_MF
  rcases heq : List.findSome?
      (mf_colErr (evaluate evalObj x).F (errFn (x_scaled xMin xMax x))
        mf_def errName req) (List.finRange nObj) with _ | e
  · exfalso
    have h3 := List.findSome?_eq_none_iff.mp heq f (List.mem_finRange f)
    simp [mf_colErr, evaluate, hcol] at h3
  · exact ⟨e, rfl⟩

/-! ### Concrete instantiation used by the witnesses: the MOMF2_4_1a
problem (four bar truss + e_r1 + its calibration table) on a 1×4 batch. -/

/-- The RE2_4_1 objective evaluator on a correctly shaped 1×4 batch
    (all four column reads succeed), in the total form that the generic
    `evaluate` / `evaluate_MF` take as parameter. -/
noncomputable def demo_evalObj : (Fin 1 → Fin 4 → ℝ) → Fin 1 → Fin 2 → ℝ :=
  fun x i => RE2_4_1_formulas (x i 0) (x i 1) (x i 2) (x i 3)

/-- A concrete 1×4 sample batch (all variables at 2, inside the truss
    bounds). -/
noncomputable def demo_batch : Fin 1 → Fin 4 → ℝ := fun _ _ => 2

/-- A fidelity request omitting objective f1 and setting f2 to level 0. -/
def demo_req_missing : Fin 2 → Option ℤ := fun f => if f.val = 0 then none else some 0

/-- Witness for C1: MOMF2_4_1a with active error function e_r1, both
    objectives requested at calibrated level 1; column f1 of the result is
    the high-fidelity truss volume plus 1.0962e+02 times e_r1 of the
    rescaled batch at Phi = 8436. -/
theorem evaluate_MF_positive_level_adds_scaled_error_witness :
    Except.map (fun r => r.F 0 0)
        (evaluate_MF demo_evalObj RE2_4_1_xmin RE2_4_1_xmax e_r1 "e_r1"
          MOMF2_4_1a_mf_def demo_batch (fun _ => some 1)) =
      .ok (.val (demo_evalObj demo_batch 0 0 +
        MOMF2_4_1a_er1_entry.scale 0 *
          e_r1 (x_scaled RE2_4_1_xmin RE2_4_1_xmax demo_batch) 8436 0)) :=
  evaluate_MF_positive_level_adds_scaled_error demo_evalObj RE2_4_1_xmin
    RE2_4_1_xmax e_r1 "e_r1" MOMF2_4_1a_mf_def demo_batch (fun _ => some 1)
    0 0 1 MOMF2_4_1a_er1_entry 8436 rfl (by decide) rfl rfl rfl

/-- Witness for C2: omitting objective f1 from the request yields the NaN
    sentinel in its column. -/
theorem evaluate_MF_missing_request_gives_nan_witness :
    Except.map (fun r => r.F 0 0)
        (evaluate_MF demo_evalObj RE2_4_1_xmin RE2_4_1_xmax e_r1 "e_r1"
          MOMF2_4_1a_mf_def demo_batch demo_req_missing) =
      .ok .nan :=
  evaluate_MF_missing_request_gives_nan demo_evalObj RE2_4_1_xmin
    RE2_4_1_xmax e_r1 "e_r1" MOMF2_4_1a_mf_def demo_batch demo_req_missing
    0 0 rfl rfl

/-- Witness for C3: requesting level 0 for both objectives reproduces
    evaluate's matrix exactly. -/
theorem evaluate_MF_all_zero_matches_evaluate_witness :
    evaluate_MF demo_evalObj RE2_4_1_xmin RE2_4_1_xmax e_r1 "e_r1"
        MOMF2_4_1a_mf_def demo_batch (fun _ => some 0) =
      .ok ⟨fun i f => .val ((evaluate demo_evalObj demo_batch).F i f)⟩ :=
  evaluate_MF_all_zero_matches_evaluate demo_evalObj RE2_4_1_xmin
    RE2_4_1_xmax e_r1 "e_r1" MOMF2_4_1a_mf_def demo_batch (fun _ => some 0)
    (fun _ => rfl)

/-- Witness for C10: a negative requested level (-2) passes the
    high-fidelity column through unchanged. -/
theorem evaluate_MF_nonpositive_level_passthrough_witness :
    Except.map (fun r => r.F 0 0)
        (evaluate_MF demo_evalObj RE2_4_1_xmin RE2_4_1_xmax e_r1 "e_r1"
          MOMF2_4_1a_mf_def demo_batch (fun _ => some (-2))) =
      .ok (.val (demo_evalObj demo_batch 0 0)) :=
  evaluate_MF_nonpositive_level_passthrough demo_evalObj RE2_4_1_xmin
    RE2_4_1_xmax e_r1 "e_r1" MOMF2_4_1a_mf_def demo_batch (fun _ => some (-2))
    0 0 (-2) rfl (by decide) rfl

/-- Witness for C4 (amended): requesting the uncalibrated level 5 on
    MOMF2_4_1a with e_r1 makes evaluate_MF raise. -/
theorem evaluate_MF_unknown_level_raises_witness :
    ∃ msg, evaluate_MF demo_evalObj RE2_4_1_xmin RE2_4_1_xmax e_r1 "e_r1"
        MOMF2_4_1a_mf_def demo_batch (fun _ => some 5) = .error msg :=
  evaluate_MF_unknown_level_raises demo_evalObj RE2_4_1_xmin RE2_4_1_xmax
    e_r1 "e_r1" MOMF2_4_1a_mf_def demo_batch (fun _ => some 5)
    0 5 MOMF2_4_1a_er1_entry rfl (by decide) rfl rfl

/-- C4 counterexample: at the concrete uncalibrated level 5 the raised
    error is the bare Python dict KeyError naming only the missing key —
    not a descriptive "unknown fidelity level" error, which the spec
    itself flags as a hardening addition absent from the original
    semantics.  The claim's "descriptive unknown fidelity level error"
    conjunct is therefore false of the code. -/
theorem evaluate_MF_unknown_level_keyerror_counterexample :
    evaluate_MF demo_evalObj RE2_4_1_xmin RE2_4_1_xmax e_r1 "e_r1"
        MOMF2_4_1a_mf_def demo_batch (fun _ => some 5) =
      .error ("KeyError: " ++ toString (5 : ℤ)) ∧
    ("KeyError: " ++ toString (5 : ℤ)) ≠ "unknown fidelity level" :=
  ⟨rfl, by decide⟩

/-- C6 counterexample: a 1×5 batch — one column more than the four-bar
    truss problem's declared 4 variables — is evaluated silently:
    `_evaluate_obj` reads columns 0-3, ignores the extra column and
    returns a matrix instead of failing fast, contradicting the claim
    that a column-count mismatch never computes silently. -/
theorem re2_4_1_extra_columns_compute_silently :
    (RE2_4_1_evaluate_obj ((fun _ _ => (1 : ℝ)) : Fin 1 → Fin 5 → ℝ)).isOk
      = true := rfl

/-- C6 amended: evaluation of the four-bar-truss problem on a batch of M
    columns fails (with the numpy IndexError of the first out-of-range
    column read) exactly when M < 4; any batch with M ≥ 4 — including
    mismatched wider batches — is computed silently from its first four
    columns.  There is no declared-variable-count check. -/
theorem re2_4_1_shape_behavior (N M : ℕ) (x : Fin N → Fin M → ℝ) :
    (M < 4 → (RE2_4_1_evaluate_obj x).isOk = false) ∧
    (∀ h : 4 ≤ M, RE2_4_1_evaluate_obj x =
      .ok (fun i => RE2_4_1_formulas (x i ⟨0, by omega⟩) (x i ⟨1, by omega⟩)
        (x i ⟨2, by omega⟩) (x i ⟨3, by omega⟩))) := by
  constructor
  · intro hM
    interval_cases M <;> rfl
  · intro h
    unfold RE2_4_1_evaluate_obj getCol
    rw [dif_pos (show 0 < M by omega), dif_pos (show 1 < M by omega),
        dif_pos (show 2 < M by omega), dif_pos (show 3 < M by omega)]
    rfl

/-- Witness for C6 (amended), at concrete shapes: a 1×2 batch raises, a
    1×5 batch returns the matrix computed from its first four columns. -/
theorem re2_4_1_shape_behavior_witness :
    (RE2_4_1_evaluate_obj ((fun _ _ => (1 : ℝ)) : Fin 1 → Fin 2 → ℝ)).isOk
        = false ∧
    RE2_4_1_evaluate_obj ((fun _ _ => (1 : ℝ)) : Fin 1 → Fin 5 → ℝ) =
      .ok (fun _ => RE2_4_1_formulas 1 1 1 1) :=
  ⟨(re2_4_1_shape_behavior 1 2 _).1 (by omega),
   (re2_4_1_shape_behavior 1 5 _).2 (by omega)⟩
